import Mathlib

/-!
Shallow embedding of `src/app.py` (Streamlit wildfire dashboard).

Modelling conventions for the pandas semantics used by the script:
* A raw CSV cell is `RawCell`: either a numeric value, a textual value, or
  an empty cell.  `pd.to_numeric(col, errors="coerce")` maps a cell to
  `Option ℚ`; a failed coercion (text) and an empty cell both become `none`,
  which plays the role of pandas `NaN`.
* `Series.map(dict)` on a coerced column: a `NaN` cell and an unmapped key
  both map to `NaN` (`none`).
* `Series.astype(str)` on a coerced numeric column: `NaN` prints as the
  literal string "nan"; a number prints via its decimal representation
  (modelled by `toString`, the exact numeral format is irrelevant to the
  claims).
* Comparisons against `NaN` (`sup > 50`) are `False`, modelled by `pdGt`.
* A dataframe is a list of column names plus a list of rows; `df.empty`
  is `rows = []`.
* Streamlit effects (`st.warning`, `st.error`, `st.info`, `st.stop`,
  rendering) are modelled by an explicit effect list.
Diacritics and quote characters inside the user-visible message strings of
the source are transliterated to plain ASCII.
-/

/-- A raw cell of the CSV / Excel input before numeric coercion. -/
inductive RawCell where
  | num (q : ℚ)
  | text (s : String)
  | empty
  deriving DecidableEq, Repr

/-- Model of `pd.to_numeric(_, errors="coerce")` on one cell: non-numeric content
becomes missing (`none`, i.e. NaN) instead of raising. -/
def toNumeric : RawCell → Option ℚ
  | .num q => some q
  | .text _ => none
  | .empty => none

/-- Model of `Series.astype(str)` on a coerced numeric cell: NaN stringifies to the
literal "nan". -/
def astypeStr : Option ℚ → String
  | none => "nan"
  | some q => toString q

/-- Model of `Series.map(dict)` on one coerced cell: NaN maps to NaN, an unmapped
key maps to NaN. The dict is an association list (first match wins). -/
def mapDict (m : List (ℚ × String)) : Option ℚ → Option String
  | none => none
  | some k => m.lookup k

/-- Model of `df[col].map(dict).fillna(df[col].astype(str))` on one cell: the lookup
result if the code is mapped, otherwise the stringified code. -/
def resolveName (m : List (ℚ × String)) (x : Option ℚ) : String :=
  match mapDict m x with
  | some s => s
  | none => astypeStr x

/-- A Python `>` comparison where the left side may be NaN: any comparison
against NaN is false. -/
def pdGt (x : Option ℚ) (c : ℚ) : Bool :=
  match x with
  | none => false
  | some v => decide (c < v)

/-! ## Metadata resolver: `cargar_maestros` -/

/-- One row of the reference table `master_data.xlsx`; every cell may be
missing. -/
structure MetaRow where
  idcomunidad : Option ℚ
  comunidad : Option String
  idprovincia : Option ℚ
  provincia : Option String
  causa : Option ℚ
  causa_label : Option String
  deriving DecidableEq, Repr

/-- The reference table: its column names and its rows. -/
structure MetaTable where
  cols : List String
  rows : List MetaRow
  deriving DecidableEq, Repr

/-- Outcome of `pd.read_excel("master_data.xlsx")`: the file may be absent,
unreadable, or read successfully. -/
inductive MetaInput where
  | fileNotFound
  | readError (msg : String)
  | ok (t : MetaTable)
  deriving DecidableEq, Repr

/-- The dictionary `maestros`: each key is present iff the corresponding
column pair existed in the reference table (`none` = key absent from the
dict). -/
structure Maestros where
  comunidades : Option (List (ℚ × String))
  provincias : Option (List (ℚ × String))
  causas : Option (List (ℚ × String))
  deriving DecidableEq, Repr

/-- Model of `df_meta[[a, b]].dropna()` followed by `dict(zip(...))` for the
comunidad pair: keep rows where both cells are present. -/
def buildComunidades (rows : List MetaRow) : List (ℚ × String) :=
  rows.filterMap fun r =>
    match r.idcomunidad, r.comunidad with
    | some k, some v => some (k, v)
    | _, _ => none

/-- Same for the provincia pair. -/
def buildProvincias (rows : List MetaRow) : List (ℚ × String) :=
  rows.filterMap fun r =>
    match r.idprovincia, r.provincia with
    | some k, some v => some (k, v)
    | _, _ => none

/-- Same for the causa pair. -/
def buildCausas (rows : List MetaRow) : List (ℚ × String) :=
  rows.filterMap fun r =>
    match r.causa, r.causa_label with
    | some k, some v => some (k, v)
    | _, _ => none

/-- Result of `cargar_maestros`: the warnings it emitted via `st.warning`
and the dictionary it returns. -/
structure MaestrosResult where
  warnings : List String
  maestros : Maestros
  deriving DecidableEq, Repr

/-- The function `cargar_maestros` from `src/app.py`: builds the three code-to-label
dicts; a missing file or any other read error is caught, warned about and
turned into the empty dict. -/
def cargar_maestros (inp : MetaInput) : MaestrosResult :=
  match inp with
  | .fileNotFound =>
      ⟨["No se encuentra master_data.xlsx. Se veran solo codigos numericos."],
       ⟨none, none, none⟩⟩
  | .readError e =>
      ⟨["Error leyendo metadatos: " ++ e], ⟨none, none, none⟩⟩
  | .ok t =>
      let com := if "idcomunidad" ∈ t.cols ∧ "comunidad" ∈ t.cols
        then some (buildComunidades t.rows) else none
      let prov := if "idprovincia" ∈ t.cols ∧ "provincia" ∈ t.cols
        then some (buildProvincias t.rows) else none
      let cau := if "causa" ∈ t.cols ∧ "causa_label" ∈ t.cols
        then some (buildCausas t.rows) else none
      ⟨[], ⟨com, prov, cau⟩⟩

/-! ## Dataset loader: `cargar_datos` -/

/-- A value held in a pandas cell of the enriched table: either a string or
a (possibly missing) number.  `causa_texto` holds strings when a cause dict
exists and raw coerced numbers when it does not. -/
inductive PdVal where
  | s (v : String)
  | n (v : Option ℚ)
  deriving DecidableEq, Repr

/-- One row of the main CSV inside `fires-all.csv.zip`.  Cells are raw,
before numeric coercion; a cell of a column that the CSV does not have is
irrelevant (column presence lives in `InDF.cols`). -/
structure InRow where
  idcomunidad : RawCell
  idprovincia : RawCell
  causa : RawCell
  idcausa : RawCell
  causa_desc : RawCell
  municipio : String
  superficie : RawCell
  lat : RawCell
  lng : RawCell
  deriving DecidableEq, Repr

/-- The main CSV as read by `pd.read_csv`: column names and rows. -/
structure InDF where
  cols : List String
  rows : List InRow
  deriving DecidableEq, Repr

/-- Column access `df[c]` for the three candidate cause columns. -/
def InRow.getCauseCol (r : InRow) (c : String) : RawCell :=
  if c = "causa" then r.causa
  else if c = "idcausa" then r.idcausa
  else r.causa_desc

/-- The comunidad section of `cargar_datos` (lines 76-84): result is the
`nombre_comunidad` column, or `none` when the script creates no such
column (mapping dict present in neither branch). -/
def enrichComunidad (dicc : Maestros) (df : InDF) : Option (List String) :=
  if "idcomunidad" ∈ df.cols then
    match dicc.comunidades with
    | some m =>
        some (df.rows.map fun r => resolveName m (toNumeric r.idcomunidad))
    | none => none
  else
    some (df.rows.map fun _ => "Desconocido")

/-- The provincia section of `cargar_datos` (lines 87-93), same shape. -/
def enrichProvincia (dicc : Maestros) (df : InDF) : Option (List String) :=
  if "idprovincia" ∈ df.cols then
    match dicc.provincias with
    | some m =>
        some (df.rows.map fun r => resolveName m (toNumeric r.idprovincia))
    | none => none
  else
    some (df.rows.map fun _ => "Desconocido")

/-- The cause column name fallback chain (lines 99-104): start from
"causa"; if absent try "idcausa", else "causa_desc"; if neither branch
fires the variable keeps the value "causa". -/
def col_causa_id (cols : List String) : String :=
  if "causa" ∈ cols then "causa"
  else if "idcausa" ∈ cols then "idcausa"
  else if "causa_desc" ∈ cols then "causa_desc"
  else "causa"

/-- The causa section of `cargar_datos` (lines 106-114): with a cause dict,
map and back-fill with "Causa {code}"; without one, copy the raw coerced
codes; with no cause column at all, the fixed placeholder. -/
def enrichCausa (dicc : Maestros) (df : InDF) : List PdVal :=
  let col := col_causa_id df.cols
  if col ∈ df.cols then
    match dicc.causas with
    | some m =>
        df.rows.map fun r =>
          let x := toNumeric (r.getCauseCol col)
          PdVal.s (match mapDict m x with
            | some t => t
            | none => "Causa " ++ astypeStr x)
    | none => df.rows.map fun r => PdVal.n (toNumeric (r.getCauseCol col))
  else
    df.rows.map fun _ => PdVal.s "No especificado"

/-- The table `cargar_datos` returns: the CSV rows plus the label columns
(the two name columns may be absent, see `enrichComunidad`). `df.empty`
corresponds to `rows = []`. -/
structure EnrDF where
  rows : List InRow
  nombre_comunidad : Option (List String)
  nombre_provincia : Option (List String)
  causa_texto : List PdVal
  deriving DecidableEq, Repr

/-- The empty `pd.DataFrame()` as returned on the failure paths. -/
def EnrDF.emptyDF : EnrDF := ⟨[], none, none, []⟩

/-- Streamlit effects the script emits, in order. -/
inductive Effect where
  | warning (s : String)
  | error (s : String)
  | info (s : String)
  | stop
  | render (s : String)
  deriving DecidableEq, Repr

/-- Outcome of the `try` body of `cargar_datos`: either some exception was
raised somewhere during loading (missing zip, unreadable CSV, ...), or the
zip opened with the given member names, the first selected CSV parsing to
`df`, with the reference-table outcome `meta`. -/
inductive DataInput where
  | exc (msg : String)
  | ok (names : List String) (df : InDF) (meta : MetaInput)
  deriving DecidableEq, Repr

/-- The Python substring test `pat in s`. -/
def pyIn (pat s : String) : Bool :=
  decide (pat.toList <:+: s.toList)

/-- Zip member selection (line 64): keep `.csv` members that are not macOS
resource-fork artifacts. -/
def selectCsv (names : List String) : List String :=
  names.filter fun f => f.endsWith ".csv" && !pyIn "__MACOSX" f

/-- The function `cargar_datos` from `src/app.py`: emits the metadata warnings, selects
the CSV, enriches it; any exception is caught, reported via `st.error` and
turned into an empty dataframe. -/
def cargar_datos (inp : DataInput) : List Effect × EnrDF :=
  match inp with
  | .exc e => ([.error ("Error cargando datos: " ++ e)], EnrDF.emptyDF)
  | .ok names df meta =>
      let mres := cargar_maestros meta
      let effs := mres.warnings.map Effect.warning
      if (selectCsv names).isEmpty then
        (effs, EnrDF.emptyDF)
      else
        (effs,
         ⟨df.rows,
          enrichComunidad mres.maestros df,
          enrichProvincia mres.maestros df,
          enrichCausa mres.maestros df⟩)

/-- The top of the script after `cargar_datos` (lines 128-132): when the
loaded table is empty, show the informational message and `st.stop()`; the
dashboard that follows is abstracted as one `render` effect. -/
def mainEffects (inp : DataInput) : List Effect :=
  let r := cargar_datos inp
  if r.2.rows.isEmpty then
    r.1 ++ [.info "Esperando datos. Asegurate de tener fires-all.csv.zip y master_data.xlsx.", .stop]
  else
    r.1 ++ [.render "dashboard"]

/-! ## Filter pipeline (lines 140-164) -/

/-- One row of the enriched table as seen by the sidebar filters: the year
of its datetime index and the three categorical columns. -/
structure FRow where
  year : Int
  nombre_comunidad : String
  nombre_provincia : String
  municipio : String
  deriving DecidableEq, Repr

/-- Line 142: `df[(df.index.year >= min_year) & (df.index.year <= max_year)]`. -/
def filtroAnos (y1 y2 : Int) (df : List FRow) : List FRow :=
  df.filter fun r => decide (y1 ≤ r.year) && decide (r.year ≤ y2)

/-- The lower-bound year filter alone. -/
def filtroDesde (y1 : Int) (df : List FRow) : List FRow :=
  df.filter fun r => decide (y1 ≤ r.year)

/-- The upper-bound year filter alone. -/
def filtroHasta (y2 : Int) (df : List FRow) : List FRow :=
  df.filter fun r => decide (r.year ≤ y2)

/-- Lines 149-150: the comunidad filter is applied only when the selection
differs from the sentinel "Todas". -/
def filtroComunidad (sel : String) (df : List FRow) : List FRow :=
  if sel ≠ "Todas" then df.filter (fun r => r.nombre_comunidad = sel) else df

/-- Lines 156-157, same for provincia. -/
def filtroProvincia (sel : String) (df : List FRow) : List FRow :=
  if sel ≠ "Todas" then df.filter (fun r => r.nombre_provincia = sel) else df

/-- Lines 163-164, sentinel "Todos" for municipio. -/
def filtroMunicipio (sel : String) (df : List FRow) : List FRow :=
  if sel ≠ "Todos" then df.filter (fun r => r.municipio = sel) else df

/-- Lexicographic code-point comparison of character lists. -/
def strLeAux : List Char → List Char → Bool
  | [], _ => true
  | _ :: _, [] => false
  | a :: as, b :: bs =>
      if a.toNat < b.toNat then true
      else if b.toNat < a.toNat then false
      else strLeAux as bs

/-- Lexicographic code-point order on strings, the order Python `sorted`
uses on `str`. -/
def strLe (a b : String) : Bool := strLeAux a.data b.data

/-- Insert a string into a sorted list of strings. -/
def insertSorted (a : String) : List String → List String
  | [] => [a]
  | b :: bs => if strLe a b then a :: b :: bs else b :: insertSorted a bs

/-- Insertion sort on strings, modelling the Python `sorted` builtin. -/
def sortList (l : List String) : List String :=
  l.foldr insertSorted []

/-- Model of `sorted(series.astype(str).unique().tolist())`: distinct values in
sorted order (the column already holds strings, so `astype(str)` is the
identity here; sorting the distinct values gives the same list whichever
duplicate of each value `unique` kept). -/
def sortedUnique (l : List String) : List String :=
  sortList l.dedup

/-- Line 146: `["Todas"] + sorted(df_filtrado[...].unique())`. -/
def lista_comunidades (df : List FRow) : List String :=
  "Todas" :: sortedUnique (df.map (·.nombre_comunidad))

/-- Line 153, computed from the table already narrowed by year+comunidad. -/
def lista_provincias (df : List FRow) : List String :=
  "Todas" :: sortedUnique (df.map (·.nombre_provincia))

/-- Line 160, computed from the table narrowed by year+comunidad+provincia. -/
def lista_municipios (df : List FRow) : List String :=
  "Todos" :: sortedUnique (df.map (·.municipio))

/-! ## Map rendering (lines 183-195) -/

/-- The cells of one filtered row used by the map loop. -/
structure MapRow where
  lat : Option ℚ
  lng : Option ℚ
  superficie : Option ℚ
  deriving DecidableEq, Repr

/-- Line 183: `df_filtrado.dropna(subset=["lat", "lng"])`. -/
def df_mapa (rows : List MapRow) : List MapRow :=
  rows.filter fun r => r.lat.isSome && r.lng.isSome

/-- Lines 186-188: when the coordinate-bearing set holds more than 2000
points, warn and keep only `head(1000)`.  Returns the points iterated by
the marker loop and whether the truncation warning was shown. -/
def puntosRenderizados (rows : List MapRow) : List MapRow × Bool :=
  let dfm := df_mapa rows
  if dfm.length > 2000 then (dfm.take 1000, true) else (dfm, false)

/-- Line 195: `"darkred" if sup > 50 else "orange" if sup > 10 else
"green"`, where `sup` may be NaN. -/
def color (sup : Option ℚ) : String :=
  if pdGt sup 50 then "darkred" else if pdGt sup 10 then "orange" else "green"

/-! ## Concrete inputs used by witnesses and counterexamples -/

/-- 2001 coordinate-bearing points: more than the truncation threshold. -/
def exMapRows : List MapRow := List.replicate 2001 ⟨some 0, some 0, none⟩

/-- The worked example from the spec: three records with years 2019/2020/2020. -/
def exFRows : List FRow :=
  [⟨2019, "Galicia", "Lugo", "Foz"⟩,
   ⟨2020, "Galicia", "Lugo", "Viveiro"⟩,
   ⟨2020, "Galicia", "Ourense", "Verin"⟩]

/-- A one-entry code-to-label mapping. -/
def exMapCom : List (ℚ × String) := [(1, "Andalucia")]

/-- A dictionary holding all three mappings. -/
def exDiccFull : Maestros := ⟨some exMapCom, some exMapCom, some exMapCom⟩

/-- The empty dictionary (no mapping at all). -/
def exDiccVacio : Maestros := ⟨none, none, none⟩

/-- A dictionary whose comunidad mapping is missing but whose other two
mappings are present. -/
def exDiccSinCom : Maestros := ⟨none, some exMapCom, some exMapCom⟩

/-- A dictionary with comunidad and provincia mappings but no causa
mapping. -/
def exDiccSinCausa : Maestros := ⟨some exMapCom, some exMapCom, none⟩

/-- One CSV row whose codes (5, 5, 7) are absent from `exMapCom`. -/
def exRowA : InRow :=
  ⟨.num 5, .num 5, .num 7, .empty, .empty, "Foz", .empty, .empty, .empty⟩

/-- One CSV row whose region and province codes fail numeric coercion. -/
def exRowBad : InRow :=
  ⟨.text "abc", .text "abc", .empty, .empty, .empty, "Foz", .empty, .empty, .empty⟩

/-- A dataset holding the code columns. -/
def exDFAll : InDF := ⟨["idcomunidad", "idprovincia", "causa"], [exRowA]⟩

/-- A dataset with none of the code columns. -/
def exDFNone : InDF := ⟨["municipio"], [exRowA]⟩

/-- A dataset whose region and province codes are non-numeric. -/
def exDFBad : InDF := ⟨["idcomunidad", "idprovincia"], [exRowBad]⟩

/-- A reference table having the comunidad and causa column pairs but
missing the provincia pair. -/
def exMetaT : MetaTable :=
  ⟨["idcomunidad", "comunidad", "causa", "causa_label"],
   [⟨some 1, some "Andalucia", none, none, some 2, some "Rayo"⟩]⟩

/-! ## Theorems -/

/-- The coordinate-dropping step keeps all 2001 points of `exMapRows`. -/
theorem exMapRows_len : (df_mapa exMapRows).length = 2001 := by
  unfold df_mapa exMapRows
  rw [List.filter_replicate]
  norm_num

/-- Membership in `insertSorted` is the new element or an old one. -/
theorem mem_insertSorted {a b : String} {l : List String} :
    a ∈ insertSorted b l ↔ a = b ∨ a ∈ l := by
  induction l with
  | nil => simp [insertSorted]
  | cons c cs ih =>
      by_cases h : strLe b c
      · simp [insertSorted, h]
      · simp [insertSorted, h, ih]
        tauto

/-- Membership in `sortList` is membership in the input. -/
theorem mem_sortList {a : String} {l : List String} :
    a ∈ sortList l ↔ a ∈ l := by
  induction l with
  | nil => simp [sortList]
  | cons c cs ih =>
      simp only [sortList, List.foldr_cons] at ih ⊢
      rw [mem_insertSorted, ih, List.mem_cons]

/-- Membership in `sortedUnique` is membership in the original list. -/
theorem mem_sortedUnique {a : String} {l : List String} :
    a ∈ sortedUnique l ↔ a ∈ l := by
  rw [sortedUnique, mem_sortList, List.mem_dedup]

/-- Rows surviving the comunidad filter come from the input and match the
selection when it is not the sentinel. -/
theorem mem_of_filtroComunidad {r : FRow} {sel : String} {df : List FRow}
    (h : r ∈ filtroComunidad sel df) :
    r ∈ df ∧ (sel ≠ "Todas" → r.nombre_comunidad = sel) := by
  by_cases hs : sel = "Todas"
  · rw [filtroComunidad, if_neg (by simp [hs])] at h
    exact ⟨h, fun hc => absurd hs hc⟩
  · rw [filtroComunidad, if_pos hs] at h
    have := List.mem_filter.1 h
    exact ⟨this.1, fun _ => by simpa using this.2⟩

/-- Same for the provincia filter. -/
theorem mem_of_filtroProvincia {r : FRow} {sel : String} {df : List FRow}
    (h : r ∈ filtroProvincia sel df) :
    r ∈ df ∧ (sel ≠ "Todas" → r.nombre_provincia = sel) := by
  by_cases hs : sel = "Todas"
  · rw [filtroProvincia, if_neg (by simp [hs])] at h
    exact ⟨h, fun hc => absurd hs hc⟩
  · rw [filtroProvincia, if_pos hs] at h
    have := List.mem_filter.1 h
    exact ⟨this.1, fun _ => by simpa using this.2⟩

/-- No failure path of `cargar_datos` emits a render effect: its effect
list holds only metadata warnings or the load error. -/
theorem cargar_datos_no_render (inp : DataInput) (s : String) :
    Effect.render s ∉ (cargar_datos inp).1 := by
  cases inp with
  | exc e => simp [cargar_datos]
  | ok names df meta =>
      by_cases h : (selectCsv names).isEmpty <;>
        simp [cargar_datos, h, List.mem_map]

/-! ## Claims -/

/-- C1: for every filtered table, the map renders at most the fixed cap of
points (2000, the threshold tested at line 186); whenever the set of
coordinate-bearing records exceeds that cap, the rendered set is strictly
truncated and the user-visible truncation warning is shown. -/
theorem C1_map_point_cap (rows : List MapRow) :
    (puntosRenderizados rows).1.length ≤ 2000 ∧
    (2000 < (df_mapa rows).length →
      (puntosRenderizados rows).2 = true ∧
      (puntosRenderizados rows).1.length < (df_mapa rows).length) := by
  by_cases h : (df_mapa rows).length > 2000
  · simp [puntosRenderizados, h, List.length_take]
    omega
  · simp [puntosRenderizados, h]
    omega

/-- C1 witness: at 2001 coordinate-bearing points the cap holds, the
warning fires and the rendered set is strictly smaller. -/
theorem C1_map_point_cap_witness :
    (puntosRenderizados exMapRows).1.length ≤ 2000 ∧
    (puntosRenderizados exMapRows).2 = true ∧
    (puntosRenderizados exMapRows).1.length < (df_mapa exMapRows).length :=
  ⟨(C1_map_point_cap exMapRows).1,
   (C1_map_point_cap exMapRows).2 (by rw [exMapRows_len]; omega)⟩

/-- C3: selecting the sentinel ("Todas" for comunidad and provincia,
"Todos" for municipio) leaves the table exactly as it was before that
filter. -/
theorem C3_all_sentinel_noop (df : List FRow) :
    filtroComunidad "Todas" df = df ∧
    filtroProvincia "Todas" df = df ∧
    filtroMunicipio "Todos" df = df := by
  refine ⟨?_, ?_, ?_⟩ <;>
    simp [filtroComunidad, filtroProvincia, filtroMunicipio]

/-- C4: the year-range filter keeps exactly the rows whose index year lies
in `[y1, y2]`; it equals the two one-sided filters composed in either
order; and the min and max year of the result lie within `[y1, y2]`. -/
theorem C4_year_range (y1 y2 : Int) (df : List FRow) :
    (∀ r, r ∈ filtroAnos y1 y2 df ↔ r ∈ df ∧ y1 ≤ r.year ∧ r.year ≤ y2) ∧
    filtroAnos y1 y2 df = filtroHasta y2 (filtroDesde y1 df) ∧
    filtroAnos y1 y2 df = filtroDesde y1 (filtroHasta y2 df) ∧
    (∀ m, ((filtroAnos y1 y2 df).map FRow.year).min? = some m →
      y1 ≤ m ∧ m ≤ y2) ∧
    (∀ m, ((filtroAnos y1 y2 df).map FRow.year).max? = some m →
      y1 ≤ m ∧ m ≤ y2) := by
  have hmem : ∀ r, r ∈ filtroAnos y1 y2 df ↔
      r ∈ df ∧ y1 ≤ r.year ∧ r.year ≤ y2 := by
    intro r
    simp [filtroAnos, List.mem_filter]
  refine ⟨hmem, ?_, ?_, ?_, ?_⟩
  · rw [filtroAnos, filtroDesde, filtroHasta, List.filter_filter]
    apply List.filter_congr
    intro r _
    rw [Bool.and_comm]
  · rw [filtroAnos, filtroDesde, filtroHasta, List.filter_filter]
  · intro m hm
    have hx := List.min?_mem (fun a b => min_choice a b) hm
    simp only [List.mem_map] at hx
    obtain ⟨r, hr, hry⟩ := hx
    have := (hmem r).1 hr
    omega
  · intro m hm
    have hx := List.max?_mem (fun a b => max_choice a b) hm
    simp only [List.mem_map] at hx
    obtain ⟨r, hr, hry⟩ := hx
    have := (hmem r).1 hr
    omega

/-- C4 witness: on the three-record example, range (2020, 2020) keeps the
two 2020 records and the min and max year of the result are 2020. -/
theorem C4_year_range_witness :
    ((filtroAnos 2020 2020 exFRows).map FRow.year).min? = some 2020 ∧
    (2020 ≤ (2020 : Int) ∧ (2020 : Int) ≤ 2020) ∧
    (⟨2020, "Galicia", "Lugo", "Viveiro"⟩ ∈ filtroAnos 2020 2020 exFRows ↔
      (⟨2020, "Galicia", "Lugo", "Viveiro"⟩ : FRow) ∈ exFRows ∧
      2020 ≤ (2020 : Int) ∧ (2020 : Int) ≤ 2020) :=
  ⟨by decide,
   (C4_year_range 2020 2020 exFRows).2.2.2.1 2020 (by decide),
   (C4_year_range 2020 2020 exFRows).1 ⟨2020, "Galicia", "Lugo", "Viveiro"⟩⟩

/-- C9: a missing (NaN) area magnitude colors the point "green", the same
color as any area of at most 10, because `>` comparisons against NaN are
false. -/
theorem C9_missing_area_is_green :
    color none = "green" ∧
    (∀ v : ℚ, v ≤ 10 → color (some v) = color none) := by
  constructor
  · rfl
  · intro v hv
    have h50 : ¬ (50 : ℚ) < v := by linarith
    have h10 : ¬ (10 : ℚ) < v := by linarith
    simp [color, pdGt, h50, h10]

/-- C9 witness: at the boundary value 10 the color is "green", matching
the missing-area color. -/
theorem C9_missing_area_is_green_witness :
    color (some 10) = color none ∧ color none = "green" :=
  ⟨(C9_missing_area_is_green).2 10 (by norm_num),
   (C9_missing_area_is_green).1⟩

/-- C2 counterexample: when the reference table provides no comunidad
mapping while the dataset does have the `idcomunidad` column, the script
creates no `nombre_comunidad` column at all; the label column is therefore
not the "Unknown"-filled column the claim requires. -/
theorem C2_label_fallbacks_cex :
    exDiccSinCom.comunidades = none ∧
    "idcomunidad" ∈ exDFAll.cols ∧
    enrichComunidad exDiccSinCom exDFAll = none ∧
    enrichComunidad exDiccSinCom exDFAll ≠
      some (exDFAll.rows.map fun _ => "Desconocido") := by
  refine ⟨rfl, by decide, rfl, by decide⟩

/-- C2 (amended): per-row, an unmapped region or province code resolves to
its stringified code and an unmapped cause code to "Causa {code}"; when a
region or province mapping is missing entirely while its code column is
present, no label column is produced at all (the "Desconocido" placeholder
column appears only when the code column itself is absent from the
dataset); and when the cause mapping is missing entirely, `causa_texto`
equals the raw coerced cause code column exactly. -/
theorem C2_label_fallbacks (dicc : Maestros) (df : InDF) :
    (∀ m, dicc.comunidades = some m → "idcomunidad" ∈ df.cols →
      enrichComunidad dicc df =
        some (df.rows.map fun r => resolveName m (toNumeric r.idcomunidad)) ∧
      ∀ x, mapDict m x = none → resolveName m x = astypeStr x) ∧
    (∀ m, dicc.provincias = some m → "idprovincia" ∈ df.cols →
      enrichProvincia dicc df =
        some (df.rows.map fun r => resolveName m (toNumeric r.idprovincia)) ∧
      ∀ x, mapDict m x = none → resolveName m x = astypeStr x) ∧
    (dicc.comunidades = none → "idcomunidad" ∈ df.cols →
      enrichComunidad dicc df = none) ∧
    (dicc.provincias = none → "idprovincia" ∈ df.cols →
      enrichProvincia dicc df = none) ∧
    ("idcomunidad" ∉ df.cols →
      enrichComunidad dicc df = some (df.rows.map fun _ => "Desconocido")) ∧
    ("idprovincia" ∉ df.cols →
      enrichProvincia dicc df = some (df.rows.map fun _ => "Desconocido")) ∧
    (∀ m, dicc.causas = some m → col_causa_id df.cols ∈ df.cols →
      enrichCausa dicc df = (df.rows.map fun r =>
        PdVal.s (match mapDict m (toNumeric (r.getCauseCol (col_causa_id df.cols))) with
          | some t => t
          | none =>
              "Causa " ++ astypeStr (toNumeric (r.getCauseCol (col_causa_id df.cols))))) ∧
      ∀ x, mapDict m x = none →
        (match mapDict m x with
          | some t => t
          | none => "Causa " ++ astypeStr x) = "Causa " ++ astypeStr x) ∧
    (dicc.causas = none → col_causa_id df.cols ∈ df.cols →
      enrichCausa dicc df =
        df.rows.map fun r => PdVal.n (toNumeric (r.getCauseCol (col_causa_id df.cols)))) := by
  refine ⟨?_, ?_, ?_, ?_, ?_, ?_, ?_, ?_⟩
  · intro m hm hc
    refine ⟨by simp [enrichComunidad, hc, hm], ?_⟩
    intro x hx
    simp [resolveName, hx]
  · intro m hm hc
    refine ⟨by simp [enrichProvincia, hc, hm], ?_⟩
    intro x hx
    simp [resolveName, hx]
  · intro hm hc
    simp [enrichComunidad, hc, hm]
  · intro hm hc
    simp [enrichProvincia, hc, hm]
  · intro hc
    simp [enrichComunidad, hc]
  · intro hc
    simp [enrichProvincia, hc]
  · intro m hm hc
    refine ⟨by simp [enrichCausa, hc, hm], ?_⟩
    intro x hx
    simp [hx]
  · intro hm hc
    simp [enrichCausa, hc, hm]

/-- C2 witness: a mapping-present unmapped code resolves to its
stringified code; a missing comunidad mapping with the column present
yields no label column; a missing code column yields the "Desconocido"
column; a missing cause mapping copies the raw coerced codes. -/
theorem C2_label_fallbacks_witness :
    enrichComunidad exDiccVacio exDFAll = none ∧
    enrichComunidad exDiccFull exDFNone = some ["Desconocido"] ∧
    enrichCausa exDiccSinCausa exDFAll = [PdVal.n (some 7)] ∧
    resolveName exMapCom (some 5) = astypeStr (some 5) :=
  ⟨(C2_label_fallbacks exDiccVacio exDFAll).2.2.1 rfl (by decide),
   ((C2_label_fallbacks exDiccFull exDFNone).2.2.2.2.1 (by decide)).trans rfl,
   ((C2_label_fallbacks exDiccSinCausa exDFAll).2.2.2.2.2.2.2 rfl
     (by decide)).trans rfl,
   ((C2_label_fallbacks exDiccFull exDFAll).1 exMapCom rfl (by decide)).2
     (some 5) (by decide)⟩

/-- C5: the cause column name is resolved by the single fixed-priority
chain "causa", then "idcausa", then "causa_desc"; when none of the three
is present the cause text column is the fixed "No especificado"
placeholder. -/
theorem C5_cause_column_chain (df : InDF) (dicc : Maestros) :
    ("causa" ∈ df.cols → col_causa_id df.cols = "causa") ∧
    ("causa" ∉ df.cols → "idcausa" ∈ df.cols →
      col_causa_id df.cols = "idcausa") ∧
    ("causa" ∉ df.cols → "idcausa" ∉ df.cols → "causa_desc" ∈ df.cols →
      col_causa_id df.cols = "causa_desc") ∧
    ("causa" ∉ df.cols → "idcausa" ∉ df.cols → "causa_desc" ∉ df.cols →
      enrichCausa dicc df = df.rows.map fun _ => PdVal.s "No especificado") := by
  refine ⟨?_, ?_, ?_, ?_⟩
  · intro h1
    simp [col_causa_id, h1]
  · intro h1 h2
    simp [col_causa_id, h1, h2]
  · intro h1 h2 h3
    simp [col_causa_id, h1, h2, h3]
  · intro h1 h2 h3
    simp [enrichCausa, col_causa_id, h1, h2, h3]

/-- C5 witness: the chain picks "causa" when present, "idcausa" next,
"causa_desc" last, and with none of the three the placeholder column is
produced. -/
theorem C5_cause_column_chain_witness :
    col_causa_id ["causa", "idcausa", "causa_desc"] = "causa" ∧
    col_causa_id ["idcausa", "causa_desc"] = "idcausa" ∧
    col_causa_id ["causa_desc"] = "causa_desc" ∧
    enrichCausa exDiccFull exDFNone = [PdVal.s "No especificado"] :=
  ⟨(C5_cause_column_chain ⟨["causa", "idcausa", "causa_desc"], []⟩
      exDiccFull).1 (by decide),
   (C5_cause_column_chain ⟨["idcausa", "causa_desc"], []⟩ exDiccFull).2.1
     (by decide) (by decide),
   (C5_cause_column_chain ⟨["causa_desc"], []⟩ exDiccFull).2.2.1
     (by decide) (by decide) (by decide),
   ((C5_cause_column_chain exDFNone exDiccFull).2.2.2
     (by decide) (by decide) (by decide)).trans rfl⟩

/-- C6: the metadata resolver is total over all read outcomes: a missing
file yields the fixed warning and the empty dictionary; any other read
error yields a warning containing the error detail and the empty
dictionary; on a successful read each of the three mappings is produced
exactly when its own column pair is present, independently of the other
two (a missing pair silently omits only that mapping). -/
theorem C6_maestros_never_fails (e : String) (t : MetaTable) :
    cargar_maestros .fileNotFound =
      ⟨["No se encuentra master_data.xlsx. Se veran solo codigos numericos."],
       ⟨none, none, none⟩⟩ ∧
    cargar_maestros (.readError e) =
      ⟨["Error leyendo metadatos: " ++ e], ⟨none, none, none⟩⟩ ∧
    (∀ w ∈ (cargar_maestros (.readError e)).warnings, pyIn e w = true) ∧
    cargar_maestros (.ok t) =
      ⟨[],
       ⟨if "idcomunidad" ∈ t.cols ∧ "comunidad" ∈ t.cols
          then some (buildComunidades t.rows) else none,
        if "idprovincia" ∈ t.cols ∧ "provincia" ∈ t.cols
          then some (buildProvincias t.rows) else none,
        if "causa" ∈ t.cols ∧ "causa_label" ∈ t.cols
          then some (buildCausas t.rows) else none⟩⟩ := by
  refine ⟨rfl, rfl, ?_, rfl⟩
  intro w hw
  simp only [cargar_maestros, List.mem_singleton] at hw
  subst hw
  simp only [pyIn, decide_eq_true_eq]
  refine List.IsSuffix.isInfix ?_
  refine ⟨("Error leyendo metadatos: ").toList, ?_⟩
  rw [← String.data_append]
  rfl

/-- C6 witness: at a concrete error message and a reference table missing
only the provincia pair, the warning contains the message and only the
provincia mapping is omitted. -/
theorem C6_maestros_never_fails_witness :
    pyIn "boom" "Error leyendo metadatos: boom" = true ∧
    cargar_maestros (.ok exMetaT) =
      ⟨[], ⟨some [(1, "Andalucia")], none, some [(2, "Rayo")]⟩⟩ :=
  ⟨(C6_maestros_never_fails "boom" exMetaT).2.2.1
     "Error leyendo metadatos: boom" (by decide),
   ((C6_maestros_never_fails "boom" exMetaT).2.2.2).trans (by decide)⟩

/-- C7: any exception during loading makes `cargar_datos` emit the
user-visible error and return the empty dataframe; and whenever the
returned dataframe is empty the script shows the terminal informational
message and stops, emitting no render effect at all. -/
theorem C7_hard_failure_halts (inp : DataInput) (e : String) :
    ((cargar_datos (.exc e)).1 =
      [.error ("Error cargando datos: " ++ e)] ∧
     (cargar_datos (.exc e)).2 = EnrDF.emptyDF) ∧
    ((cargar_datos inp).2.rows = [] →
      mainEffects inp = (cargar_datos inp).1 ++
        [.info "Esperando datos. Asegurate de tener fires-all.csv.zip y master_data.xlsx.",
         .stop] ∧
      ∀ s, Effect.render s ∉ mainEffects inp) := by
  refine ⟨⟨rfl, rfl⟩, ?_⟩
  intro h
  have hmain : mainEffects inp = (cargar_datos inp).1 ++
      [.info "Esperando datos. Asegurate de tener fires-all.csv.zip y master_data.xlsx.",
       .stop] := by
    unfold mainEffects
    simp only []
    rw [if_pos (List.isEmpty_iff.2 h)]
  refine ⟨hmain, ?_⟩
  intro s hs
  rw [hmain] at hs
  rcases List.mem_append.1 hs with h1 | h2
  · exact cargar_datos_no_render inp s h1
  · simp at h2

/-- C7 witness: a concrete load exception produces exactly the error, the
terminal info message and the stop, with no render effect. -/
theorem C7_hard_failure_halts_witness :
    mainEffects (.exc "boom") =
      [.error "Error cargando datos: boom",
       .info "Esperando datos. Asegurate de tener fires-all.csv.zip y master_data.xlsx.",
       .stop] ∧
    Effect.render "dashboard" ∉ mainEffects (.exc "boom") :=
  ⟨(((C7_hard_failure_halts (.exc "boom") "boom").2 rfl).1).trans rfl,
   ((C7_hard_failure_halts (.exc "boom") "boom").2 rfl).2 "dashboard"⟩

/-- C8: option lists cascade: with a region selected, every non-sentinel
province option is the province name of some base record of that region
within the year range; every row surviving the year+region+province
filters satisfies those filters; and every non-sentinel municipality
option comes from a row of that thrice-filtered set. -/
theorem C8_cascading_options (y1 y2 : Int) (df : List FRow)
    (csel psel : String) :
    (csel ≠ "Todas" →
      ∀ p ∈ lista_provincias (filtroComunidad csel (filtroAnos y1 y2 df)),
        p ≠ "Todas" →
        ∃ r ∈ df, r.nombre_comunidad = csel ∧ y1 ≤ r.year ∧ r.year ≤ y2 ∧
          r.nombre_provincia = p) ∧
    (∀ r ∈ filtroProvincia psel (filtroComunidad csel (filtroAnos y1 y2 df)),
      r ∈ df ∧ y1 ≤ r.year ∧ r.year ≤ y2 ∧
      (csel ≠ "Todas" → r.nombre_comunidad = csel) ∧
      (psel ≠ "Todas" → r.nombre_provincia = psel)) ∧
    (∀ m ∈ lista_municipios
        (filtroProvincia psel (filtroComunidad csel (filtroAnos y1 y2 df))),
      m ≠ "Todos" →
      ∃ r ∈ filtroProvincia psel (filtroComunidad csel (filtroAnos y1 y2 df)),
        r.municipio = m) := by
  have hanos : ∀ r, r ∈ filtroAnos y1 y2 df →
      r ∈ df ∧ y1 ≤ r.year ∧ r.year ≤ y2 := by
    intro r hr
    have := List.mem_filter.1 hr
    refine ⟨this.1, ?_⟩
    have h2 := this.2
    simp only [Bool.and_eq_true, decide_eq_true_eq] at h2
    exact h2
  refine ⟨?_, ?_, ?_⟩
  · intro hc p hp hpt
    rcases hp with _ | ⟨_, hp⟩
    · exact absurd rfl hpt
    · have hp2 := mem_sortedUnique.1 hp
      rcases List.mem_map.1 hp2 with ⟨r, hr, hrp⟩
      have h1 := mem_of_filtroComunidad hr
      have h2 := hanos r h1.1
      exact ⟨r, h2.1, h1.2 hc, h2.2.1, h2.2.2, hrp⟩
  · intro r hr
    have h1 := mem_of_filtroProvincia hr
    have h2 := mem_of_filtroComunidad h1.1
    have h3 := hanos r h2.1
    exact ⟨h3.1, h3.2.1, h3.2.2, h2.2, h1.2⟩
  · intro m hm hmt
    rcases hm with _ | ⟨_, hm⟩
    · exact absurd rfl hmt
    · have hm2 := mem_sortedUnique.1 hm
      rcases List.mem_map.1 hm2 with ⟨r, hr, hrm⟩
      exact ⟨r, hr, hrm⟩

/-- C8 witness: on the three-record example with region "Galicia" and
province "Lugo" selected over 2020-2020, the option "Lugo" traces back to
a matching base record and the option "Viveiro" to a row of the filtered
set. -/
theorem C8_cascading_options_witness :
    (∃ r ∈ exFRows, r.nombre_comunidad = "Galicia" ∧ (2020 : Int) ≤ r.year ∧
      r.year ≤ 2020 ∧ r.nombre_provincia = "Lugo") ∧
    (∃ r ∈ filtroProvincia "Lugo"
        (filtroComunidad "Galicia" (filtroAnos 2020 2020 exFRows)),
      r.municipio = "Viveiro") :=
  ⟨(C8_cascading_options 2020 2020 exFRows "Galicia" "Lugo").1
     (by decide) "Lugo" (by decide) (by decide),
   (C8_cascading_options 2020 2020 exFRows "Galicia" "Lugo").2.2
     "Viveiro" (by decide) (by decide)⟩

/-- C10: a region or province code that fails numeric coercion resolves,
when the mapping exists, to the literal string "nan" (the stringification
of the missing value), never to a missing label or to "Desconocido". -/
theorem C10_failed_coercion_nan (m : List (ℚ × String)) (dicc : Maestros)
    (df : InDF) :
    (∀ c : RawCell, toNumeric c = none →
      resolveName m (toNumeric c) = "nan") ∧
    ("nan" ≠ "Desconocido") ∧
    (dicc.comunidades = some m → "idcomunidad" ∈ df.cols →
      enrichComunidad dicc df =
        some (df.rows.map fun r => resolveName m (toNumeric r.idcomunidad))) ∧
    (dicc.provincias = some m → "idprovincia" ∈ df.cols →
      enrichProvincia dicc df =
        some (df.rows.map fun r => resolveName m (toNumeric r.idprovincia))) := by
  refine ⟨?_, by decide, ?_, ?_⟩
  · intro c hc
    rw [hc]
    rfl
  · intro hm hc
    simp [enrichComunidad, hc, hm]
  · intro hm hc
    simp [enrichProvincia, hc, hm]

/-- C10 witness: a non-numeric comunidad and provincia code in a dataset
with both mappings present yields the label "nan" in both name columns. -/
theorem C10_failed_coercion_nan_witness :
    resolveName exMapCom (toNumeric (.text "abc")) = "nan" ∧
    enrichComunidad exDiccSinCausa exDFBad = some ["nan"] ∧
    enrichProvincia exDiccSinCausa exDFBad = some ["nan"] :=
  ⟨(C10_failed_coercion_nan exMapCom exDiccSinCausa exDFBad).1
     (.text "abc") rfl,
   ((C10_failed_coercion_nan exMapCom exDiccSinCausa exDFBad).2.2.1
     rfl (by decide)).trans rfl,
   ((C10_failed_coercion_nan exMapCom exDiccSinCausa exDFBad).2.2.2
     rfl (by decide)).trans rfl⟩
